import Mathlib

/-!
Shallow embedding of the YAPB packet library (src/yapb.c, include/yapb.h).

Machine memory is modelled as a function from byte offsets to byte values
(every read is reduced mod 256, matching `uint8_t` storage).  C pointers that
may be null are modelled with `Option`/`Bool` flags; a caller-supplied output
location is modelled by an `Option` component of the result that is `some`
exactly when the C code writes through the pointer.  `float`/`double` values
are modelled by their 32/64-bit IEEE-754 bit patterns, since the C code only
ever copies those bit patterns (`memcpy`) to and from the wire.
-/

namespace YAPB

/-- Result code `YAPB_STS_COMPLETE` (success, last element consumed). -/
def YAPB_STS_COMPLETE : Int := 1

/-- Result code `YAPB_OK` (success, more elements may follow). -/
def YAPB_OK : Int := 0

/-- Result code `YAPB_ERR_UNKNOWN`. -/
def YAPB_ERR_UNKNOWN : Int := -1

/-- Result code `YAPB_ERR_NULL_PTR`. -/
def YAPB_ERR_NULL_PTR : Int := -2

/-- Result code `YAPB_ERR_BUFFER_TOO_SMALL`. -/
def YAPB_ERR_BUFFER_TOO_SMALL : Int := -3

/-- Result code `YAPB_ERR_INVALID_MODE`. -/
def YAPB_ERR_INVALID_MODE : Int := -4

/-- Result code `YAPB_ERR_TYPE_MISMATCH`. -/
def YAPB_ERR_TYPE_MISMATCH : Int := -5

/-- Result code `YAPB_ERR_INVALID_PACKET`. -/
def YAPB_ERR_INVALID_PACKET : Int := -6

/-- Result code `YAPB_ERR_NO_MORE_ELEMENTS`. -/
def YAPB_ERR_NO_MORE_ELEMENTS : Int := -7

/-- Wire tag `YAPB_INT8`. -/
def YAPB_INT8 : Nat := 0x00

/-- Wire tag `YAPB_INT16`. -/
def YAPB_INT16 : Nat := 0x01

/-- Wire tag `YAPB_INT32`. -/
def YAPB_INT32 : Nat := 0x02

/-- Wire tag `YAPB_INT64`. -/
def YAPB_INT64 : Nat := 0x03

/-- Wire tag `YAPB_FLOAT`. -/
def YAPB_FLOAT : Nat := 0x04

/-- Wire tag `YAPB_DOUBLE`. -/
def YAPB_DOUBLE : Nat := 0x05

/-- Wire tag `YAPB_BLOB`. -/
def YAPB_BLOB : Nat := 0x0E

/-- Wire tag `YAPB_NESTED_PKT`. -/
def YAPB_NESTED_PKT : Nat := 0x0F

/-- Mode constant `YAPB_MODE_WRITE`. -/
def YAPB_MODE_WRITE : Nat := 0

/-- Mode constant `YAPB_MODE_READ`. -/
def YAPB_MODE_READ : Nat := 1

/-- Header size constant `YAPB_HEADER_SIZE`. -/
def YAPB_HEADER_SIZE : Nat := 4

/-- Byte-addressed memory: offset to byte value. -/
abbrev Mem : Type := Nat → Nat

/-- Read the `uint8_t` at offset `i`. -/
def byteAt (m : Mem) (i : Nat) : Nat := m i % 256

/-- Store a `uint8_t` at offset `i` (the value is truncated to a byte). -/
def setByte (m : Mem) (i : Nat) (b : Nat) : Mem := Function.update m i (b % 256)

/-- Memory holding the bytes of a concrete list (zero past the end). -/
def listMem (l : List Nat) : Mem := fun i => l.getD i 0

/-- `write_u16`: store a 16-bit value big-endian at offset `i` (src/yapb.c). -/
def write_u16 (m : Mem) (i : Nat) (v : Nat) : Mem :=
  setByte (setByte m i (v / 256)) (i + 1) v

/-- `write_u32`: store a 32-bit value big-endian at offset `i` (src/yapb.c). -/
def write_u32 (m : Mem) (i : Nat) (v : Nat) : Mem :=
  setByte (setByte (setByte (setByte m i (v / 16777216)) (i + 1) (v / 65536)) (i + 2) (v / 256)) (i + 3) v

/-- `write_u64`: two big-endian 32-bit halves, high then low (src/yapb.c). -/
def write_u64 (m : Mem) (i : Nat) (v : Nat) : Mem :=
  write_u32 (write_u32 m i (v / 4294967296)) (i + 4) (v % 4294967296)

/-- `read_u16`: load a big-endian 16-bit value from offset `i` (src/yapb.c). -/
def read_u16 (m : Mem) (i : Nat) : Nat :=
  byteAt m i * 256 + byteAt m (i + 1)

/-- `read_u32`: load a big-endian 32-bit value from offset `i` (src/yapb.c). -/
def read_u32 (m : Mem) (i : Nat) : Nat :=
  ((byteAt m i * 256 + byteAt m (i + 1)) * 256 + byteAt m (i + 2)) * 256 + byteAt m (i + 3)

/-- `read_u64`: combine two big-endian 32-bit halves (src/yapb.c). -/
def read_u64 (m : Mem) (i : Nat) : Nat :=
  read_u32 m i * 4294967296 + read_u32 m (i + 4)

/-- C cast `(int8_t)` applied to an unsigned value. -/
def toInt8 (u : Nat) : Int :=
  if u % 256 < 128 then (u % 256 : Int) else (u % 256 : Int) - 256

/-- C cast `(int16_t)` applied to an unsigned value. -/
def toInt16 (u : Nat) : Int :=
  if u % 65536 < 32768 then (u % 65536 : Int) else (u % 65536 : Int) - 65536

/-- C cast `(int32_t)` applied to an unsigned value. -/
def toInt32 (u : Nat) : Int :=
  if u % 4294967296 < 2147483648 then (u % 4294967296 : Int) else (u % 4294967296 : Int) - 4294967296

/-- C cast `(int64_t)` applied to an unsigned value. -/
def toInt64 (u : Nat) : Int :=
  if u % 18446744073709551616 < 9223372036854775808 then (u % 18446744073709551616 : Int) else (u % 18446744073709551616 : Int) - 18446744073709551616

/-- C cast `(uint8_t)` applied to a signed value. -/
def castU8 (v : Int) : Nat := (v % 256).toNat

/-- C cast `(uint16_t)` applied to a signed value. -/
def castU16 (v : Int) : Nat := (v % 65536).toNat

/-- C cast `(uint32_t)` applied to a signed value. -/
def castU32 (v : Int) : Nat := (v % 4294967296).toNat

/-- C cast `(uint64_t)` applied to a signed value. -/
def castU64 (v : Int) : Nat := (v % 18446744073709551616).toNat

/-- The hidden `_YAPB_Packet_t` struct of src/yapb.c.  `buffer` is the byte
memory the packet's buffer pointer points into (offset 0 is the header). -/
structure Packet where
  buffer : Mem
  buffer_size : Nat
  pos : Nat
  mode : Nat
  error : Int
  finalized : Bool

/-- A throwaway packet value used only to project `Option Packet` results. -/
def dummyPacket : Packet := ⟨fun _ => 0, 0, 0, 0, 0, false⟩

/-- The static helper `check_complete` of src/yapb.c: `COMPLETE` once the
cursor reached the end, `OK` otherwise. -/
def check_complete (p : Packet) : Int :=
  if p.buffer_size ≤ p.pos then YAPB_STS_COMPLETE else YAPB_OK

/-- The static helper `_pop_validate` of src/yapb.c.  The packet argument is
non-null here; `outNull` models `out == NULL` (the C code checks
`p == NULL || out == NULL` in the same first branch).  Returns the result code
and the (possibly error-latched) packet; on success the cursor is one past the
consumed tag byte. -/
def _pop_validate (p : Packet) (outNull : Bool) (expected : Nat) (type_size : Nat) : Int × Packet :=
  if outNull then (YAPB_ERR_NULL_PTR, p)
  else if p.error < 0 then (p.error, p)
  else if p.mode ≠ YAPB_MODE_READ then (YAPB_ERR_INVALID_MODE, {p with error := YAPB_ERR_INVALID_MODE})
  else if p.buffer_size ≤ p.pos then (YAPB_ERR_NO_MORE_ELEMENTS, {p with error := YAPB_ERR_NO_MORE_ELEMENTS})
  else if byteAt p.buffer p.pos ≠ expected then (YAPB_ERR_TYPE_MISMATCH, {p with error := YAPB_ERR_TYPE_MISMATCH})
  else if p.buffer_size < p.pos + 1 + type_size then (YAPB_ERR_INVALID_PACKET, {p with error := YAPB_ERR_INVALID_PACKET})
  else (YAPB_OK, {p with pos := p.pos + 1})

/-- The static helper `_push_validate` of src/yapb.c (packet non-null in the
model; `valNull` models `val == NULL`). -/
def _push_validate (p : Packet) (valNull : Bool) (needed : Nat) : Int × Packet :=
  if valNull then (YAPB_ERR_NULL_PTR, p)
  else if p.error < 0 then (p.error, p)
  else if p.mode ≠ YAPB_MODE_WRITE ∨ p.finalized = true then (YAPB_ERR_INVALID_MODE, {p with error := YAPB_ERR_INVALID_MODE})
  else if p.buffer_size < p.pos + needed then (YAPB_ERR_BUFFER_TOO_SMALL, {p with error := YAPB_ERR_BUFFER_TOO_SMALL})
  else (YAPB_OK, p)

/-- `YAPB_initialize` (src/yapb.c): set up a write-mode packet over a
caller-supplied buffer and zero-fill the header. -/
def YAPB_initialize (pktNull : Bool) (buffer : Option Mem) (size : Nat) : Int × Option Packet :=
  match buffer, pktNull with
  | none, _ => (YAPB_ERR_NULL_PTR, none)
  | some _, true => (YAPB_ERR_NULL_PTR, none)
  | some b, false =>
    if size < YAPB_HEADER_SIZE then (YAPB_ERR_BUFFER_TOO_SMALL, none)
    else (YAPB_OK, some ⟨write_u32 b 0 0, size, YAPB_HEADER_SIZE, YAPB_MODE_WRITE, YAPB_OK, false⟩)

/-- `YAPB_finalize` (src/yapb.c): stamp the big-endian header with the current
position, latch `finalized`, and report the total length through `out_len`
(third component; `none` when `out_len` is null or on failure).  The C null
check on `pkt` itself is outside this model (packet non-null here). -/
def YAPB_finalize (p : Packet) (outLenNull : Bool) : Int × Packet × Option Nat :=
  if p.mode ≠ YAPB_MODE_WRITE ∨ p.finalized = true then (YAPB_ERR_INVALID_MODE, p, none)
  else
    (YAPB_OK, {p with buffer := write_u32 p.buffer 0 p.pos, finalized := true},
      if outLenNull then none else some p.pos)

/-- `YAPB_load` (src/yapb.c): validate the header and set up a read-mode
packet.  The second component is the packet written through `pkt`, `none`
when nothing was written (failure). -/
def YAPB_load (pktNull : Bool) (data : Option Mem) (size : Nat) : Int × Option Packet :=
  match data, pktNull with
  | none, _ => (YAPB_ERR_NULL_PTR, none)
  | some _, true => (YAPB_ERR_NULL_PTR, none)
  | some d, false =>
    if size < YAPB_HEADER_SIZE then (YAPB_ERR_BUFFER_TOO_SMALL, none)
    else if size < read_u32 d 0 ∨ read_u32 d 0 < YAPB_HEADER_SIZE then (YAPB_ERR_INVALID_PACKET, none)
    else (YAPB_OK, some ⟨d, read_u32 d 0, YAPB_HEADER_SIZE, YAPB_MODE_READ, YAPB_OK, false⟩)

/-- `YAPB_push_i8` (src/yapb.c). -/
def YAPB_push_i8 (p : Packet) (valNull : Bool) (val : Int) : Int × Packet :=
  let v := _push_validate p valNull (1 + 1)
  if v.1 ≠ YAPB_OK then v
  else
    (YAPB_OK, { v.2 with
                buffer := setByte (setByte v.2.buffer v.2.pos YAPB_INT8) (v.2.pos + 1) (castU8 val),
                pos := v.2.pos + 2 })

/-- `YAPB_push_i16` (src/yapb.c). -/
def YAPB_push_i16 (p : Packet) (valNull : Bool) (val : Int) : Int × Packet :=
  let v := _push_validate p valNull (1 + 2)
  if v.1 ≠ YAPB_OK then v
  else
    (YAPB_OK, { v.2 with
                buffer := write_u16 (setByte v.2.buffer v.2.pos YAPB_INT16) (v.2.pos + 1) (castU16 val),
                pos := v.2.pos + 3 })

/-- `YAPB_push_i32` (src/yapb.c). -/
def YAPB_push_i32 (p : Packet) (valNull : Bool) (val : Int) : Int × Packet :=
  let v := _push_validate p valNull (1 + 4)
  if v.1 ≠ YAPB_OK then v
  else
    (YAPB_OK, { v.2 with
                buffer := write_u32 (setByte v.2.buffer v.2.pos YAPB_INT32) (v.2.pos + 1) (castU32 val),
                pos := v.2.pos + 5 })

/-- `YAPB_push_i64` (src/yapb.c). -/
def YAPB_push_i64 (p : Packet) (valNull : Bool) (val : Int) : Int × Packet :=
  let v := _push_validate p valNull (1 + 8)
  if v.1 ≠ YAPB_OK then v
  else
    (YAPB_OK, { v.2 with
                buffer := write_u64 (setByte v.2.buffer v.2.pos YAPB_INT64) (v.2.pos + 1) (castU64 val),
                pos := v.2.pos + 9 })

/-- `YAPB_push_float` (src/yapb.c); `bits` is the IEEE-754 bit pattern the C
code obtains by `memcpy` from the `float`. -/
def YAPB_push_float (p : Packet) (valNull : Bool) (bits : Nat) : Int × Packet :=
  let v := _push_validate p valNull (1 + 4)
  if v.1 ≠ YAPB_OK then v
  else
    (YAPB_OK, { v.2 with
                buffer := write_u32 (setByte v.2.buffer v.2.pos YAPB_FLOAT) (v.2.pos + 1) bits,
                pos := v.2.pos + 5 })

/-- `YAPB_push_double` (src/yapb.c); `bits` is the IEEE-754 bit pattern. -/
def YAPB_push_double (p : Packet) (valNull : Bool) (bits : Nat) : Int × Packet :=
  let v := _push_validate p valNull (1 + 8)
  if v.1 ≠ YAPB_OK then v
  else
    (YAPB_OK, { v.2 with
                buffer := write_u64 (setByte v.2.buffer v.2.pos YAPB_DOUBLE) (v.2.pos + 1) bits,
                pos := v.2.pos + 9 })

/-- `YAPB_pop_i8` (src/yapb.c).  Third component: the value written through
`out` (`none` when the C code does not write it). -/
def YAPB_pop_i8 (p : Packet) (outNull : Bool) : Int × Packet × Option Int :=
  let v := _pop_validate p outNull YAPB_INT8 1
  if v.1 ≠ YAPB_OK then (v.1, v.2, none)
  else
    let p2 : Packet := {v.2 with pos := v.2.pos + 1}
    (check_complete p2, p2, some (toInt8 (byteAt v.2.buffer v.2.pos)))

/-- `YAPB_pop_i16` (src/yapb.c). -/
def YAPB_pop_i16 (p : Packet) (outNull : Bool) : Int × Packet × Option Int :=
  let v := _pop_validate p outNull YAPB_INT16 2
  if v.1 ≠ YAPB_OK then (v.1, v.2, none)
  else
    let p2 : Packet := {v.2 with pos := v.2.pos + 2}
    (check_complete p2, p2, some (toInt16 (read_u16 v.2.buffer v.2.pos)))

/-- `YAPB_pop_i32` (src/yapb.c). -/
def YAPB_pop_i32 (p : Packet) (outNull : Bool) : Int × Packet × Option Int :=
  let v := _pop_validate p outNull YAPB_INT32 4
  if v.1 ≠ YAPB_OK then (v.1, v.2, none)
  else
    let p2 : Packet := {v.2 with pos := v.2.pos + 4}
    (check_complete p2, p2, some (toInt32 (read_u32 v.2.buffer v.2.pos)))

/-- `YAPB_pop_i64` (src/yapb.c). -/
def YAPB_pop_i64 (p : Packet) (outNull : Bool) : Int × Packet × Option Int :=
  let v := _pop_validate p outNull YAPB_INT64 8
  if v.1 ≠ YAPB_OK then (v.1, v.2, none)
  else
    let p2 : Packet := {v.2 with pos := v.2.pos + 8}
    (check_complete p2, p2, some (toInt64 (read_u64 v.2.buffer v.2.pos)))

/-- `YAPB_pop_float` (src/yapb.c); the popped value is returned as its
IEEE-754 bit pattern (the C code `memcpy`s these bits into `*out`). -/
def YAPB_pop_float (p : Packet) (outNull : Bool) : Int × Packet × Option Nat :=
  let v := _pop_validate p outNull YAPB_FLOAT 4
  if v.1 ≠ YAPB_OK then (v.1, v.2, none)
  else
    let p2 : Packet := {v.2 with pos := v.2.pos + 4}
    (check_complete p2, p2, some (read_u32 v.2.buffer v.2.pos))

/-- `YAPB_pop_double` (src/yapb.c). -/
def YAPB_pop_double (p : Packet) (outNull : Bool) : Int × Packet × Option Nat :=
  let v := _pop_validate p outNull YAPB_DOUBLE 8
  if v.1 ≠ YAPB_OK then (v.1, v.2, none)
  else
    let p2 : Packet := {v.2 with pos := v.2.pos + 8}
    (check_complete p2, p2, some (read_u64 v.2.buffer v.2.pos))

/-- `YAPB_pop_blob` (src/yapb.c), packet non-null (see `YAPB_pop_blob_c` for
the null handle).  Components: result, packet, blob pointer written through
`*data` (as an offset into the packet buffer), length written through `*len`.
Mirrors the C control flow: the `*len` store happens before `_pop_validate`,
so `*len` is `some` even on the validation failure paths. -/
def YAPB_pop_blob (p : Packet) (dataNull lenNull : Bool) : Int × Packet × Option Nat × Option Nat :=
  if lenNull then (YAPB_ERR_NULL_PTR, p, none, none)
  else if p.buffer_size < p.pos + 3 then
    (YAPB_ERR_INVALID_PACKET, {p with error := YAPB_ERR_INVALID_PACKET}, none, none)
  else
    let len := read_u16 p.buffer (p.pos + 1)
    let v := _pop_validate p dataNull YAPB_BLOB (len + 2)
    if v.1 ≠ YAPB_OK then (v.1, v.2, none, some len)
    else
      let p1 : Packet := {v.2 with pos := v.2.pos + 2}
      let p2 : Packet := {p1 with pos := p1.pos + len}
      (check_complete p2, p2, some p1.pos, some len)

/-- `YAPB_pop_nested` (src/yapb.c), packet non-null (see `YAPB_pop_nested_c`).
Third component: the child packet written through `out` by `YAPB_load`. -/
def YAPB_pop_nested (p : Packet) (outNull : Bool) : Int × Packet × Option Packet :=
  if p.buffer_size < p.pos + YAPB_HEADER_SIZE + 1 then
    (YAPB_ERR_INVALID_PACKET, {p with error := YAPB_ERR_INVALID_PACKET}, none)
  else
    let nested_len := read_u32 p.buffer (p.pos + 1)
    let v := _pop_validate p outNull YAPB_NESTED_PKT nested_len
    if v.1 ≠ YAPB_OK then (v.1, v.2, none)
    else
      let r := YAPB_load false (some (fun i => v.2.buffer (v.2.pos + i))) nested_len
      if r.1 ≠ YAPB_OK then (r.1, {v.2 with error := r.1}, none)
      else
        let p2 : Packet := {v.2 with pos := v.2.pos + nested_len}
        (check_complete p2, p2, r.2)

/-- `YAPB_pop_blob` including its behaviour on a null packet handle.  The C
function checks `len == NULL` first, then evaluates `p->pos` and
`p->buffer_size` with `p = (_YAPB_Packet_t *)pkt` before any null check on
`pkt`; dereferencing the null handle is modelled as `none` (crash). -/
def YAPB_pop_blob_c (pkt : Option Packet) (dataNull lenNull : Bool) :
    Option (Int × Option Packet × Option Nat × Option Nat) :=
  if lenNull then some (YAPB_ERR_NULL_PTR, pkt, none, none)
  else
    match pkt with
    | none => none
    | some p =>
      let r := YAPB_pop_blob p dataNull false
      some (r.1, some r.2.1, r.2.2.1, r.2.2.2)

/-- `YAPB_pop_nested` including its behaviour on a null packet handle: the C
function evaluates `p->pos` and `p->buffer_size` before any null check on
`pkt`; dereferencing the null handle is modelled as `none` (crash). -/
def YAPB_pop_nested_c (pkt : Option Packet) (outNull : Bool) :
    Option (Int × Option Packet × Option Packet) :=
  match pkt with
  | none => none
  | some p =>
    let r := YAPB_pop_nested p outNull
    some (r.1, some r.2.1, r.2.2)

/-- Contents of the value union of `YAPB_Element_t` (include/yapb.h).  The
`vblob` fields are `Option` because the C code can write `val.blob.len`
without writing `val.blob.data`; `varb` stands for arbitrary prior contents
of the caller's union. -/
inductive ElemVal where
  | vi8 (v : Int)
  | vi16 (v : Int)
  | vi32 (v : Int)
  | vi64 (v : Int)
  | vfloat (bits : Nat)
  | vdouble (bits : Nat)
  | vblob (dataOff : Option Nat) (len : Option Nat)
  | vnested (child : Packet)
  | varb (n : Nat)

/-- `YAPB_Element_t` (include/yapb.h): tag plus value union. -/
structure Element where
  type : Nat
  val : ElemVal

/-- `YAPB_pop_next` (src/yapb.c), packet non-null.  `e` is the caller's
element (the C code mutates `*out`); the returned element reflects exactly
the fields the C code wrote. -/
def YAPB_pop_next (p : Packet) (outNull : Bool) (e : Element) : Int × Packet × Element :=
  if outNull then (YAPB_ERR_NULL_PTR, p, e)
  else if p.error < 0 then (p.error, p, e)
  else if p.mode ≠ YAPB_MODE_READ then (YAPB_ERR_INVALID_MODE, {p with error := YAPB_ERR_INVALID_MODE}, e)
  else if p.buffer_size ≤ p.pos then (YAPB_ERR_NO_MORE_ELEMENTS, {p with error := YAPB_ERR_NO_MORE_ELEMENTS}, e)
  else
    let t := byteAt p.buffer p.pos
    let e1 : Element := {e with type := t}
    if t = YAPB_INT8 then
      let r := YAPB_pop_i8 p false
      (r.1, r.2.1, match r.2.2 with | some v => {e1 with val := ElemVal.vi8 v} | none => e1)
    else if t = YAPB_INT16 then
      let r := YAPB_pop_i16 p false
      (r.1, r.2.1, match r.2.2 with | some v => {e1 with val := ElemVal.vi16 v} | none => e1)
    else if t = YAPB_INT32 then
      let r := YAPB_pop_i32 p false
      (r.1, r.2.1, match r.2.2 with | some v => {e1 with val := ElemVal.vi32 v} | none => e1)
    else if t = YAPB_INT64 then
      let r := YAPB_pop_i64 p false
      (r.1, r.2.1, match r.2.2 with | some v => {e1 with val := ElemVal.vi64 v} | none => e1)
    else if t = YAPB_FLOAT then
      let r := YAPB_pop_float p false
      (r.1, r.2.1, match r.2.2 with | some v => {e1 with val := ElemVal.vfloat v} | none => e1)
    else if t = YAPB_DOUBLE then
      let r := YAPB_pop_double p false
      (r.1, r.2.1, match r.2.2 with | some v => {e1 with val := ElemVal.vdouble v} | none => e1)
    else if t = YAPB_BLOB then
      let r := YAPB_pop_blob p false false
      (r.1, r.2.1, match r.2.2.1, r.2.2.2 with
        | none, none => e1
        | d, l => {e1 with val := ElemVal.vblob d l})
    else if t = YAPB_NESTED_PKT then
      let r := YAPB_pop_nested p false
      (r.1, r.2.1, match r.2.2 with | some c => {e1 with val := ElemVal.vnested c} | none => e1)
    else
      (YAPB_ERR_INVALID_PACKET, {p with error := YAPB_ERR_INVALID_PACKET}, e1)

/-- `YAPB_check_complete` (src/yapb.c): standalone framing check. -/
def YAPB_check_complete (data : Option Mem) (len : Nat) : Bool :=
  match data with
  | none => false
  | some d =>
    if len < YAPB_HEADER_SIZE then false
    else if read_u32 d 0 < YAPB_HEADER_SIZE then false
    else if read_u32 d 0 ≤ len then true else false

/-- An all-zero caller buffer for the round-trip compositions. -/
def zeros : Mem := fun _ => 0

/-- initialize / push_i8 / finalize / load / pop_i8, as in spec §8
round-trip: result code of the final pop and the value it wrote. -/
def roundtrip_i8 (v : Int) : Int × Option Int :=
  let p0 := ( YAPB_initialize false (some zeros) 6).2.getD dummyPacket
  let s1 := YAPB_push_i8 p0 false v
  let s2 := YAPB_finalize s1.2 false
  let q0 := (YAPB_load false (some s2.2.1.buffer) (s2.2.2.getD 0)).2.getD dummyPacket
  let t := YAPB_pop_i8 q0 false
  (t.1, t.2.2)

/-- Round-trip composition for `i16`. -/
def roundtrip_i16 (v : Int) : Int × Option Int :=
  let p0 := ( YAPB_initialize false (some zeros) 7).2.getD dummyPacket
  let s1 := YAPB_push_i16 p0 false v
  let s2 := YAPB_finalize s1.2 false
  let q0 := (YAPB_load false (some s2.2.1.buffer) (s2.2.2.getD 0)).2.getD dummyPacket
  let t := YAPB_pop_i16 q0 false
  (t.1, t.2.2)

/-- Round-trip composition for `i32`. -/
def roundtrip_i32 (v : Int) : Int × Option Int :=
  let p0 := ( YAPB_initialize false (some zeros) 9).2.getD dummyPacket
  let s1 := YAPB_push_i32 p0 false v
  let s2 := YAPB_finalize s1.2 false
  let q0 := (YAPB_load false (some s2.2.1.buffer) (s2.2.2.getD 0)).2.getD dummyPacket
  let t := YAPB_pop_i32 q0 false
  (t.1, t.2.2)

/-- Round-trip composition for `i64`. -/
def roundtrip_i64 (v : Int) : Int × Option Int :=
  let p0 := ( YAPB_initialize false (some zeros) 13).2.getD dummyPacket
  let s1 := YAPB_push_i64 p0 false v
  let s2 := YAPB_finalize s1.2 false
  let q0 := (YAPB_load false (some s2.2.1.buffer) (s2.2.2.getD 0)).2.getD dummyPacket
  let t := YAPB_pop_i64 q0 false
  (t.1, t.2.2)

/-- Round-trip composition for `float` (IEEE-754 bit patterns). -/
def roundtrip_float (bits : Nat) : Int × Option Nat :=
  let p0 := ( YAPB_initialize false (some zeros) 9).2.getD dummyPacket
  let s1 := YAPB_push_float p0 false bits
  let s2 := YAPB_finalize s1.2 false
  let q0 := (YAPB_load false (some s2.2.1.buffer) (s2.2.2.getD 0)).2.getD dummyPacket
  let t := YAPB_pop_float q0 false
  (t.1, t.2.2)

/-- Round-trip composition for `double` (IEEE-754 bit patterns). -/
def roundtrip_double (bits : Nat) : Int × Option Nat :=
  let p0 := ( YAPB_initialize false (some zeros) 13).2.getD dummyPacket
  let s1 := YAPB_push_double p0 false bits
  let s2 := YAPB_finalize s1.2 false
  let q0 := (YAPB_load false (some s2.2.1.buffer) (s2.2.2.getD 0)).2.getD dummyPacket
  let t := YAPB_pop_double q0 false
  (t.1, t.2.2)

/-! ## Byte-level lemmas about the codec helpers -/

lemma byteAt_setByte_self (m : Mem) (i b : Nat) : byteAt (setByte m i b) i = b % 256 := by
  simp [byteAt, setByte]

lemma byteAt_setByte_of_ne (m : Mem) {j i : Nat} (h : j ≠ i) (b : Nat) :
    byteAt (setByte m i b) j = byteAt m j := by
  simp [byteAt, setByte, Function.update_noteq h]

lemma byteAt_write_u32_of_out (m : Mem) (i v k : Nat) (h : k < i ∨ i + 4 ≤ k) :
    byteAt (write_u32 m i v) k = byteAt m k := by
  simp only [write_u32]
  rw [byteAt_setByte_of_ne _ (by omega), byteAt_setByte_of_ne _ (by omega),
      byteAt_setByte_of_ne _ (by omega), byteAt_setByte_of_ne _ (by omega)]

lemma read_u16_write_u16 (m : Mem) (i v : Nat) :
    read_u16 (write_u16 m i v) i = v % 65536 := by
  simp only [read_u16, write_u16]
  rw [byteAt_setByte_of_ne _ (by omega), byteAt_setByte_self, byteAt_setByte_self]
  omega

lemma read_u32_write_u32 (m : Mem) (i v : Nat) :
    read_u32 (write_u32 m i v) i = v % 4294967296 := by
  simp only [read_u32, write_u32]
  rw [byteAt_setByte_of_ne _ (by omega), byteAt_setByte_of_ne _ (by omega),
      byteAt_setByte_of_ne _ (by omega), byteAt_setByte_self,
      byteAt_setByte_of_ne _ (by omega), byteAt_setByte_of_ne _ (by omega),
      byteAt_setByte_self]
  rw [byteAt_setByte_of_ne _ (by omega), byteAt_setByte_self, byteAt_setByte_self]
  omega

lemma read_u16_write_u32_of_out (m : Mem) (i v k : Nat) (h : k + 2 ≤ i ∨ i + 4 ≤ k) :
    read_u16 (write_u32 m i v) k = read_u16 m k := by
  simp only [read_u16]
  rw [byteAt_write_u32_of_out _ _ _ _ (by omega), byteAt_write_u32_of_out _ _ _ _ (by omega)]

lemma read_u32_write_u32_of_out (m : Mem) (i v k : Nat) (h : k + 4 ≤ i ∨ i + 4 ≤ k) :
    read_u32 (write_u32 m i v) k = read_u32 m k := by
  simp only [read_u32]
  rw [byteAt_write_u32_of_out _ _ _ _ (by omega), byteAt_write_u32_of_out _ _ _ _ (by omega),
      byteAt_write_u32_of_out _ _ _ _ (by omega), byteAt_write_u32_of_out _ _ _ _ (by omega)]

lemma read_u64_write_u32_of_out (m : Mem) (i v k : Nat) (h : k + 8 ≤ i ∨ i + 4 ≤ k) :
    read_u64 (write_u32 m i v) k = read_u64 m k := by
  simp only [read_u64]
  rw [read_u32_write_u32_of_out _ _ _ _ (by omega), read_u32_write_u32_of_out _ _ _ _ (by omega)]

lemma read_u64_write_u64 (m : Mem) (i v : Nat) :
    read_u64 (write_u64 m i v) i = v % 18446744073709551616 := by
  simp only [read_u64, write_u64]
  rw [read_u32_write_u32_of_out _ _ _ _ (by omega), read_u32_write_u32, read_u32_write_u32]
  omega

/-! ## Round-trip lemmas for each primitive type -/

lemma rt_i8 (v : Int) (h1 : -128 ≤ v) (h2 : v < 128) :
    roundtrip_i8 v = (YAPB_STS_COMPLETE, some v) := by
  have e0 : ( YAPB_initialize false (some zeros) 6).2.getD dummyPacket =
      (⟨write_u32 zeros 0 0, 6, 4, 0, 0, false⟩ : Packet) := rfl
  have e1 : YAPB_push_i8 (⟨write_u32 zeros 0 0, 6, 4, 0, 0, false⟩ : Packet) false v =
      (YAPB_OK, ⟨setByte (setByte (write_u32 zeros 0 0) 4 YAPB_INT8) 5 (castU8 v), 6, 6, 0, 0, false⟩) := rfl
  have e2 : YAPB_finalize (⟨setByte (setByte (write_u32 zeros 0 0) 4 YAPB_INT8) 5 (castU8 v), 6, 6, 0, 0, false⟩ : Packet) false =
      (YAPB_OK, ⟨write_u32 (setByte (setByte (write_u32 zeros 0 0) 4 YAPB_INT8) 5 (castU8 v)) 0 6, 6, 6, 0, 0, true⟩, some 6) := rfl
  have e3 : YAPB_load false (some (write_u32 (setByte (setByte (write_u32 zeros 0 0) 4 YAPB_INT8) 5 (castU8 v)) 0 6)) 6 =
      (YAPB_OK, some ⟨write_u32 (setByte (setByte (write_u32 zeros 0 0) 4 YAPB_INT8) 5 (castU8 v)) 0 6, 6, 4, 1, 0, false⟩) := by
    simp only [YAPB_load, read_u32_write_u32]
    norm_num [YAPB_HEADER_SIZE, YAPB_OK, YAPB_MODE_READ]
  have e4 : YAPB_pop_i8 (⟨write_u32 (setByte (setByte (write_u32 zeros 0 0) 4 YAPB_INT8) 5 (castU8 v)) 0 6, 6, 4, 1, 0, false⟩ : Packet) false =
      (YAPB_STS_COMPLETE, ⟨write_u32 (setByte (setByte (write_u32 zeros 0 0) 4 YAPB_INT8) 5 (castU8 v)) 0 6, 6, 6, 1, 0, false⟩,
        some (toInt8 (byteAt (write_u32 (setByte (setByte (write_u32 zeros 0 0) 4 YAPB_INT8) 5 (castU8 v)) 0 6) 5))) := rfl
  have evalue : toInt8 (byteAt (write_u32 (setByte (setByte (write_u32 zeros 0 0) 4 YAPB_INT8) 5 (castU8 v)) 0 6) 5) = v := by
    rw [byteAt_write_u32_of_out _ _ _ _ (by omega), byteAt_setByte_self]
    unfold toInt8 castU8
    split <;> omega
  simp only [roundtrip_i8, e0, e1, e2, e3, e4, Option.getD_some, evalue]

lemma rt_i16 (v : Int) (h1 : -32768 ≤ v) (h2 : v < 32768) :
    roundtrip_i16 v = (YAPB_STS_COMPLETE, some v) := by
  have e0 : ( YAPB_initialize false (some zeros) 7).2.getD dummyPacket =
      (⟨write_u32 zeros 0 0, 7, 4, 0, 0, false⟩ : Packet) := rfl
  have e1 : YAPB_push_i16 (⟨write_u32 zeros 0 0, 7, 4, 0, 0, false⟩ : Packet) false v =
      (YAPB_OK, ⟨write_u16 (setByte (write_u32 zeros 0 0) 4 YAPB_INT16) 5 (castU16 v), 7, 7, 0, 0, false⟩) := rfl
  have e2 : YAPB_finalize (⟨write_u16 (setByte (write_u32 zeros 0 0) 4 YAPB_INT16) 5 (castU16 v), 7, 7, 0, 0, false⟩ : Packet) false =
      (YAPB_OK, ⟨write_u32 (write_u16 (setByte (write_u32 zeros 0 0) 4 YAPB_INT16) 5 (castU16 v)) 0 7, 7, 7, 0, 0, true⟩, some 7) := rfl
  have e3 : YAPB_load false (some (write_u32 (write_u16 (setByte (write_u32 zeros 0 0) 4 YAPB_INT16) 5 (castU16 v)) 0 7)) 7 =
      (YAPB_OK, some ⟨write_u32 (write_u16 (setByte (write_u32 zeros 0 0) 4 YAPB_INT16) 5 (castU16 v)) 0 7, 7, 4, 1, 0, false⟩) := by
    simp only [YAPB_load, read_u32_write_u32]
    norm_num [YAPB_HEADER_SIZE, YAPB_OK, YAPB_MODE_READ]
  have e4 : YAPB_pop_i16 (⟨write_u32 (write_u16 (setByte (write_u32 zeros 0 0) 4 YAPB_INT16) 5 (castU16 v)) 0 7, 7, 4, 1, 0, false⟩ : Packet) false =
      (YAPB_STS_COMPLETE, ⟨write_u32 (write_u16 (setByte (write_u32 zeros 0 0) 4 YAPB_INT16) 5 (castU16 v)) 0 7, 7, 7, 1, 0, false⟩,
        some (toInt16 (read_u16 (write_u32 (write_u16 (setByte (write_u32 zeros 0 0) 4 YAPB_INT16) 5 (castU16 v)) 0 7) 5))) := rfl
  have evalue : toInt16 (read_u16 (write_u32 (write_u16 (setByte (write_u32 zeros 0 0) 4 YAPB_INT16) 5 (castU16 v)) 0 7) 5) = v := by
    rw [read_u16_write_u32_of_out _ _ _ _ (by omega), read_u16_write_u16]
    unfold toInt16 castU16
    split <;> omega
  simp only [roundtrip_i16, e0, e1, e2, e3, e4, Option.getD_some, evalue]

lemma rt_i32 (v : Int) (h1 : -2147483648 ≤ v) (h2 : v < 2147483648) :
    roundtrip_i32 v = (YAPB_STS_COMPLETE, some v) := by
  have e0 : ( YAPB_initialize false (some zeros) 9).2.getD dummyPacket =
      (⟨write_u32 zeros 0 0, 9, 4, 0, 0, false⟩ : Packet) := rfl
  have e1 : YAPB_push_i32 (⟨write_u32 zeros 0 0, 9, 4, 0, 0, false⟩ : Packet) false v =
      (YAPB_OK, ⟨write_u32 (setByte (write_u32 zeros 0 0) 4 YAPB_INT32) 5 (castU32 v), 9, 9, 0, 0, false⟩) := rfl
  have e2 : YAPB_finalize (⟨write_u32 (setByte (write_u32 zeros 0 0) 4 YAPB_INT32) 5 (castU32 v), 9, 9, 0, 0, false⟩ : Packet) false =
      (YAPB_OK, ⟨write_u32 (write_u32 (setByte (write_u32 zeros 0 0) 4 YAPB_INT32) 5 (castU32 v)) 0 9, 9, 9, 0, 0, true⟩, some 9) := rfl
  have e3 : YAPB_load false (some (write_u32 (write_u32 (setByte (write_u32 zeros 0 0) 4 YAPB_INT32) 5 (castU32 v)) 0 9)) 9 =
      (YAPB_OK, some ⟨write_u32 (write_u32 (setByte (write_u32 zeros 0 0) 4 YAPB_INT32) 5 (castU32 v)) 0 9, 9, 4, 1, 0, false⟩) := by
    simp only [YAPB_load, read_u32_write_u32]
    norm_num [YAPB_HEADER_SIZE, YAPB_OK, YAPB_MODE_READ]
  have e4 : YAPB_pop_i32 (⟨write_u32 (write_u32 (setByte (write_u32 zeros 0 0) 4 YAPB_INT32) 5 (castU32 v)) 0 9, 9, 4, 1, 0, false⟩ : Packet) false =
      (YAPB_STS_COMPLETE, ⟨write_u32 (write_u32 (setByte (write_u32 zeros 0 0) 4 YAPB_INT32) 5 (castU32 v)) 0 9, 9, 9, 1, 0, false⟩,
        some (toInt32 (read_u32 (write_u32 (write_u32 (setByte (write_u32 zeros 0 0) 4 YAPB_INT32) 5 (castU32 v)) 0 9) 5))) := rfl
  have evalue : toInt32 (read_u32 (write_u32 (write_u32 (setByte (write_u32 zeros 0 0) 4 YAPB_INT32) 5 (castU32 v)) 0 9) 5) = v := by
    rw [read_u32_write_u32_of_out _ _ _ _ (by omega), read_u32_write_u32]
    unfold toInt32 castU32
    split <;> omega
  simp only [roundtrip_i32, e0, e1, e2, e3, e4, Option.getD_some, evalue]

lemma rt_i64 (v : Int) (h1 : -9223372036854775808 ≤ v) (h2 : v < 9223372036854775808) :
    roundtrip_i64 v = (YAPB_STS_COMPLETE, some v) := by
  have e0 : ( YAPB_initialize false (some zeros) 13).2.getD dummyPacket =
      (⟨write_u32 zeros 0 0, 13, 4, 0, 0, false⟩ : Packet) := rfl
  have e1 : YAPB_push_i64 (⟨write_u32 zeros 0 0, 13, 4, 0, 0, false⟩ : Packet) false v =
      (YAPB_OK, ⟨write_u64 (setByte (write_u32 zeros 0 0) 4 YAPB_INT64) 5 (castU64 v), 13, 13, 0, 0, false⟩) := rfl
  have e2 : YAPB_finalize (⟨write_u64 (setByte (write_u32 zeros 0 0) 4 YAPB_INT64) 5 (castU64 v), 13, 13, 0, 0, false⟩ : Packet) false =
      (YAPB_OK, ⟨write_u32 (write_u64 (setByte (write_u32 zeros 0 0) 4 YAPB_INT64) 5 (castU64 v)) 0 13, 13, 13, 0, 0, true⟩, some 13) := rfl
  have e3 : YAPB_load false (some (write_u32 (write_u64 (setByte (write_u32 zeros 0 0) 4 YAPB_INT64) 5 (castU64 v)) 0 13)) 13 =
      (YAPB_OK, some ⟨write_u32 (write_u64 (setByte (write_u32 zeros 0 0) 4 YAPB_INT64) 5 (castU64 v)) 0 13, 13, 4, 1, 0, false⟩) := by
    simp only [YAPB_load, read_u32_write_u32]
    norm_num [YAPB_HEADER_SIZE, YAPB_OK, YAPB_MODE_READ]
  have e4 : YAPB_pop_i64 (⟨write_u32 (write_u64 (setByte (write_u32 zeros 0 0) 4 YAPB_INT64) 5 (castU64 v)) 0 13, 13, 4, 1, 0, false⟩ : Packet) false =
      (YAPB_STS_COMPLETE, ⟨write_u32 (write_u64 (setByte (write_u32 zeros 0 0) 4 YAPB_INT64) 5 (castU64 v)) 0 13, 13, 13, 1, 0, false⟩,
        some (toInt64 (read_u64 (write_u32 (write_u64 (setByte (write_u32 zeros 0 0) 4 YAPB_INT64) 5 (castU64 v)) 0 13) 5))) := rfl
  have evalue : toInt64 (read_u64 (write_u32 (write_u64 (setByte (write_u32 zeros 0 0) 4 YAPB_INT64) 5 (castU64 v)) 0 13) 5) = v := by
    rw [read_u64_write_u32_of_out _ _ _ _ (by omega), read_u64_write_u64]
    unfold toInt64 castU64
    split <;> omega
  simp only [roundtrip_i64, e0, e1, e2, e3, e4, Option.getD_some, evalue]

lemma rt_float (bits : Nat) (h : bits < 4294967296) :
    roundtrip_float bits = (YAPB_STS_COMPLETE, some bits) := by
  have e0 : ( YAPB_initialize false (some zeros) 9).2.getD dummyPacket =
      (⟨write_u32 zeros 0 0, 9, 4, 0, 0, false⟩ : Packet) := rfl
  have e1 : YAPB_push_float (⟨write_u32 zeros 0 0, 9, 4, 0, 0, false⟩ : Packet) false bits =
      (YAPB_OK, ⟨write_u32 (setByte (write_u32 zeros 0 0) 4 YAPB_FLOAT) 5 bits, 9, 9, 0, 0, false⟩) := rfl
  have e2 : YAPB_finalize (⟨write_u32 (setByte (write_u32 zeros 0 0) 4 YAPB_FLOAT) 5 bits, 9, 9, 0, 0, false⟩ : Packet) false =
      (YAPB_OK, ⟨write_u32 (write_u32 (setByte (write_u32 zeros 0 0) 4 YAPB_FLOAT) 5 bits) 0 9, 9, 9, 0, 0, true⟩, some 9) := rfl
  have e3 : YAPB_load false (some (write_u32 (write_u32 (setByte (write_u32 zeros 0 0) 4 YAPB_FLOAT) 5 bits) 0 9)) 9 =
      (YAPB_OK, some ⟨write_u32 (write_u32 (setByte (write_u32 zeros 0 0) 4 YAPB_FLOAT) 5 bits) 0 9, 9, 4, 1, 0, false⟩) := by
    simp only [YAPB_load, read_u32_write_u32]
    norm_num [YAPB_HEADER_SIZE, YAPB_OK, YAPB_MODE_READ]
  have e4 : YAPB_pop_float (⟨write_u32 (write_u32 (setByte (write_u32 zeros 0 0) 4 YAPB_FLOAT) 5 bits) 0 9, 9, 4, 1, 0, false⟩ : Packet) false =
      (YAPB_STS_COMPLETE, ⟨write_u32 (write_u32 (setByte (write_u32 zeros 0 0) 4 YAPB_FLOAT) 5 bits) 0 9, 9, 9, 1, 0, false⟩,
        some (read_u32 (write_u32 (write_u32 (setByte (write_u32 zeros 0 0) 4 YAPB_FLOAT) 5 bits) 0 9) 5)) := rfl
  have evalue : read_u32 (write_u32 (write_u32 (setByte (write_u32 zeros 0 0) 4 YAPB_FLOAT) 5 bits) 0 9) 5 = bits := by
    rw [read_u32_write_u32_of_out _ _ _ _ (by omega), read_u32_write_u32]
    omega
  simp only [roundtrip_float, e0, e1, e2, e3, e4, Option.getD_some, evalue]

lemma rt_double (bits : Nat) (h : bits < 18446744073709551616) :
    roundtrip_double bits = (YAPB_STS_COMPLETE, some bits) := by
  have e0 : ( YAPB_initialize false (some zeros) 13).2.getD dummyPacket =
      (⟨write_u32 zeros 0 0, 13, 4, 0, 0, false⟩ : Packet) := rfl
  have e1 : YAPB_push_double (⟨write_u32 zeros 0 0, 13, 4, 0, 0, false⟩ : Packet) false bits =
      (YAPB_OK, ⟨write_u64 (setByte (write_u32 zeros 0 0) 4 YAPB_DOUBLE) 5 bits, 13, 13, 0, 0, false⟩) := rfl
  have e2 : YAPB_finalize (⟨write_u64 (setByte (write_u32 zeros 0 0) 4 YAPB_DOUBLE) 5 bits, 13, 13, 0, 0, false⟩ : Packet) false =
      (YAPB_OK, ⟨write_u32 (write_u64 (setByte (write_u32 zeros 0 0) 4 YAPB_DOUBLE) 5 bits) 0 13, 13, 13, 0, 0, true⟩, some 13) := rfl
  have e3 : YAPB_load false (some (write_u32 (write_u64 (setByte (write_u32 zeros 0 0) 4 YAPB_DOUBLE) 5 bits) 0 13)) 13 =
      (YAPB_OK, some ⟨write_u32 (write_u64 (setByte (write_u32 zeros 0 0) 4 YAPB_DOUBLE) 5 bits) 0 13, 13, 4, 1, 0, false⟩) := by
    simp only [YAPB_load, read_u32_write_u32]
    norm_num [YAPB_HEADER_SIZE, YAPB_OK, YAPB_MODE_READ]
  have e4 : YAPB_pop_double (⟨write_u32 (write_u64 (setByte (write_u32 zeros 0 0) 4 YAPB_DOUBLE) 5 bits) 0 13, 13, 4, 1, 0, false⟩ : Packet) false =
      (YAPB_STS_COMPLETE, ⟨write_u32 (write_u64 (setByte (write_u32 zeros 0 0) 4 YAPB_DOUBLE) 5 bits) 0 13, 13, 13, 1, 0, false⟩,
        some (read_u64 (write_u32 (write_u64 (setByte (write_u32 zeros 0 0) 4 YAPB_DOUBLE) 5 bits) 0 13) 5)) := rfl
  have evalue : read_u64 (write_u32 (write_u64 (setByte (write_u32 zeros 0 0) 4 YAPB_DOUBLE) 5 bits) 0 13) 5 = bits := by
    rw [read_u64_write_u32_of_out _ _ _ _ (by omega), read_u64_write_u64]
    omega
  simp only [roundtrip_double, e0, e1, e2, e3, e4, Option.getD_some, evalue]

/-- C4: for every primitive type T in i8/i16/i32/i64/float/double and every
value v of that type (floats and doubles ranging over all 32/64-bit IEEE-754
bit patterns, which is what the C code round-trips bit-exactly), the sequence
initialize (with a sufficiently large buffer), push_T(v), finalize, load of
the produced bytes, pop_T returns exactly v with the non-negative success
status `YAPB_STS_COMPLETE`. -/
theorem c4_primitive_roundtrip :
    (∀ v : Int, -128 ≤ v → v < 128 → roundtrip_i8 v = (YAPB_STS_COMPLETE, some v)) ∧
    (∀ v : Int, -32768 ≤ v → v < 32768 → roundtrip_i16 v = (YAPB_STS_COMPLETE, some v)) ∧
    (∀ v : Int, -2147483648 ≤ v → v < 2147483648 → roundtrip_i32 v = (YAPB_STS_COMPLETE, some v)) ∧
    (∀ v : Int, -9223372036854775808 ≤ v → v < 9223372036854775808 → roundtrip_i64 v = (YAPB_STS_COMPLETE, some v)) ∧
    (∀ b : Nat, b < 4294967296 → roundtrip_float b = (YAPB_STS_COMPLETE, some b)) ∧
    (∀ b : Nat, b < 18446744073709551616 → roundtrip_double b = (YAPB_STS_COMPLETE, some b)) :=
  ⟨rt_i8, rt_i16, rt_i32, rt_i64, rt_float, rt_double⟩

/-- C4 witness: the round-trip theorem applied at concrete values of each
primitive type. -/
theorem c4_primitive_roundtrip_witness :
    roundtrip_i8 (-5) = (YAPB_STS_COMPLETE, some (-5)) ∧
    roundtrip_i16 (-30000) = (YAPB_STS_COMPLETE, some (-30000)) ∧
    roundtrip_i32 2000000000 = (YAPB_STS_COMPLETE, some 2000000000) ∧
    roundtrip_i64 (-9223372036854775808) = (YAPB_STS_COMPLETE, some (-9223372036854775808)) ∧
    roundtrip_float 1078530011 = (YAPB_STS_COMPLETE, some 1078530011) ∧
    roundtrip_double 4614256656552045848 = (YAPB_STS_COMPLETE, some 4614256656552045848) :=
  ⟨c4_primitive_roundtrip.1 (-5) (by decide) (by decide),
   c4_primitive_roundtrip.2.1 (-30000) (by decide) (by decide),
   c4_primitive_roundtrip.2.2.1 2000000000 (by decide) (by decide),
   c4_primitive_roundtrip.2.2.2.1 (-9223372036854775808) (by decide) (by decide),
   c4_primitive_roundtrip.2.2.2.2.1 1078530011 (by decide),
   c4_primitive_roundtrip.2.2.2.2.2 4614256656552045848 (by decide)⟩

/-- C1 evaluated at a failing input: load the 5-byte packet
`[00 00 00 05 01]` (one INT16 tag, no payload), pop_i8 latches
`TYPE_MISMATCH` (-5); the claim says every later push/pop on this packet must
return -5 and the stored error must stay -5, but the next `YAPB_pop_blob`
(valid output pointers) overwrites the latched error with `INVALID_PACKET`
(-6) through its pre-validation bounds check and returns -6. -/
theorem c1_sticky_error_overwritten_eval :
    (YAPB_pop_i8 ((YAPB_load false (some (listMem [0, 0, 0, 5, 1])) 5).2.getD dummyPacket) false).1 =
      YAPB_ERR_TYPE_MISMATCH ∧
    (YAPB_pop_i8 ((YAPB_load false (some (listMem [0, 0, 0, 5, 1])) 5).2.getD dummyPacket) false).2.1.error =
      YAPB_ERR_TYPE_MISMATCH ∧
    (YAPB_pop_blob
      (YAPB_pop_i8 ((YAPB_load false (some (listMem [0, 0, 0, 5, 1])) 5).2.getD dummyPacket) false).2.1
      false false).1 = YAPB_ERR_INVALID_PACKET ∧
    (YAPB_pop_blob
      (YAPB_pop_i8 ((YAPB_load false (some (listMem [0, 0, 0, 5, 1])) 5).2.getD dummyPacket) false).2.1
      false false).2.1.error = YAPB_ERR_INVALID_PACKET ∧
    YAPB_ERR_INVALID_PACKET ≠ YAPB_ERR_TYPE_MISMATCH := by
  decide

/-- C2 evaluated at a failing input: load the 7-byte packet
`[00 00 00 07 00 AB CD]` whose next element is an INT8, then call
`YAPB_pop_blob` with valid output pointers.  The pop fails with
`TYPE_MISMATCH`, yet the caller's `*len` output has been overwritten with
0xABCD = 43981 (the C code stores `*len` before `_pop_validate` runs),
contradicting the claim that outputs are untouched on every failure path. -/
theorem c2_pop_blob_writes_len_on_failure_eval :
    (YAPB_pop_blob ((YAPB_load false (some (listMem [0, 0, 0, 7, 0, 171, 205])) 7).2.getD dummyPacket)
      false false).1 = YAPB_ERR_TYPE_MISMATCH ∧
    (YAPB_pop_blob ((YAPB_load false (some (listMem [0, 0, 0, 7, 0, 171, 205])) 7).2.getD dummyPacket)
      false false).2.2.2 = some 43981 := by
  decide

/-- C3 counterexample: on the freshly loaded empty packet `[00 00 00 04]` the
cursor already sits at the end (`pos = buffer_size = 4`), the packet is in
read mode and error-free, yet `YAPB_pop_blob` and `YAPB_pop_nested` return
`INVALID_PACKET` (-6), not the `NO_MORE_ELEMENTS` (-7) the claim requires of
every typed pop at or past the end. -/
theorem c3_blob_nested_at_end_counterexample :
    ((YAPB_load false (some (listMem [0, 0, 0, 4])) 4).2.getD dummyPacket).mode = YAPB_MODE_READ ∧
    ((YAPB_load false (some (listMem [0, 0, 0, 4])) 4).2.getD dummyPacket).error = YAPB_OK ∧
    ((YAPB_load false (some (listMem [0, 0, 0, 4])) 4).2.getD dummyPacket).buffer_size ≤
      ((YAPB_load false (some (listMem [0, 0, 0, 4])) 4).2.getD dummyPacket).pos ∧
    (YAPB_pop_blob ((YAPB_load false (some (listMem [0, 0, 0, 4])) 4).2.getD dummyPacket) false false).1 =
      YAPB_ERR_INVALID_PACKET ∧
    (YAPB_pop_nested ((YAPB_load false (some (listMem [0, 0, 0, 4])) 4).2.getD dummyPacket) false).1 =
      YAPB_ERR_INVALID_PACKET ∧
    YAPB_ERR_INVALID_PACKET ≠ YAPB_ERR_NO_MORE_ELEMENTS := by
  decide

/-- C3 (amended): the shared pop validator checks, first failing check
winning: null arguments, then prior sticky error, then wrong mode, then
position at or past end (`NoMoreElements`), then tag mismatch
(`TypeMismatch`), then insufficient remaining bytes (`InvalidPacket`); the
six scalar pops therefore return `NoMoreElements` on a read-mode, error-free
packet at or past the end.  Blob and nested pops, however, first bounds-check
their length field (3 resp. 5 bytes from the cursor) and latch
`InvalidPacket` when it does not fit — so at or past the end they return
`InvalidPacket`, not `NoMoreElements`. -/
theorem c3_pop_validation_order :
    (∀ (p : Packet) (expected ts : Nat),
      _pop_validate p true expected ts = (YAPB_ERR_NULL_PTR, p) ∧
      (p.error < 0 → _pop_validate p false expected ts = (p.error, p)) ∧
      (0 ≤ p.error → p.mode ≠ YAPB_MODE_READ →
        _pop_validate p false expected ts =
          (YAPB_ERR_INVALID_MODE, {p with error := YAPB_ERR_INVALID_MODE})) ∧
      (0 ≤ p.error → p.mode = YAPB_MODE_READ → p.buffer_size ≤ p.pos →
        _pop_validate p false expected ts =
          (YAPB_ERR_NO_MORE_ELEMENTS, {p with error := YAPB_ERR_NO_MORE_ELEMENTS})) ∧
      (0 ≤ p.error → p.mode = YAPB_MODE_READ → p.pos < p.buffer_size →
        byteAt p.buffer p.pos ≠ expected →
        _pop_validate p false expected ts =
          (YAPB_ERR_TYPE_MISMATCH, {p with error := YAPB_ERR_TYPE_MISMATCH})) ∧
      (0 ≤ p.error → p.mode = YAPB_MODE_READ → p.pos < p.buffer_size →
        byteAt p.buffer p.pos = expected → p.buffer_size < p.pos + 1 + ts →
        _pop_validate p false expected ts =
          (YAPB_ERR_INVALID_PACKET, {p with error := YAPB_ERR_INVALID_PACKET}))) ∧
    (∀ p : Packet, 0 ≤ p.error → p.mode = YAPB_MODE_READ → p.buffer_size ≤ p.pos →
      (YAPB_pop_i8 p false).1 = YAPB_ERR_NO_MORE_ELEMENTS ∧
      (YAPB_pop_i16 p false).1 = YAPB_ERR_NO_MORE_ELEMENTS ∧
      (YAPB_pop_i32 p false).1 = YAPB_ERR_NO_MORE_ELEMENTS ∧
      (YAPB_pop_i64 p false).1 = YAPB_ERR_NO_MORE_ELEMENTS ∧
      (YAPB_pop_float p false).1 = YAPB_ERR_NO_MORE_ELEMENTS ∧
      (YAPB_pop_double p false).1 = YAPB_ERR_NO_MORE_ELEMENTS ∧
      (YAPB_pop_blob p false false).1 = YAPB_ERR_INVALID_PACKET ∧
      (YAPB_pop_nested p false).1 = YAPB_ERR_INVALID_PACKET) := by
  constructor
  · intro p expected ts
    refine ⟨rfl, ?_, ?_, ?_, ?_, ?_⟩
    · intro h
      simp [_pop_validate, h]
    · intro h0 hm
      simp [_pop_validate, hm, show ¬p.error < 0 by omega]
    · intro h0 hm hend
      simp [_pop_validate, hm, hend, show ¬p.error < 0 by omega, YAPB_MODE_READ]
    · intro h0 hm hlt ht
      simp [_pop_validate, hm, ht, show ¬p.error < 0 by omega,
        show ¬p.buffer_size ≤ p.pos by omega, YAPB_MODE_READ]
    · intro h0 hm hlt ht hsz
      simp [_pop_validate, hm, ht, hsz, show ¬p.error < 0 by omega,
        show ¬p.buffer_size ≤ p.pos by omega, YAPB_MODE_READ]
  · intro p h0 hm hend
    have hv : ∀ expected ts, _pop_validate p false expected ts =
        (YAPB_ERR_NO_MORE_ELEMENTS, {p with error := YAPB_ERR_NO_MORE_ELEMENTS}) := by
      intro expected ts
      simp [_pop_validate, hm, hend, show ¬p.error < 0 by omega, YAPB_MODE_READ]
    refine ⟨?_, ?_, ?_, ?_, ?_, ?_, ?_, ?_⟩
    · simp [YAPB_pop_i8, hv, YAPB_ERR_NO_MORE_ELEMENTS, YAPB_OK]
    · simp [YAPB_pop_i16, hv, YAPB_ERR_NO_MORE_ELEMENTS, YAPB_OK]
    · simp [YAPB_pop_i32, hv, YAPB_ERR_NO_MORE_ELEMENTS, YAPB_OK]
    · simp [YAPB_pop_i64, hv, YAPB_ERR_NO_MORE_ELEMENTS, YAPB_OK]
    · simp [YAPB_pop_float, hv, YAPB_ERR_NO_MORE_ELEMENTS, YAPB_OK]
    · simp [YAPB_pop_double, hv, YAPB_ERR_NO_MORE_ELEMENTS, YAPB_OK]
    · simp [YAPB_pop_blob, show p.buffer_size < p.pos + 3 by omega]
    · simp [YAPB_pop_nested, YAPB_HEADER_SIZE, show p.buffer_size < p.pos + 4 + 1 by omega]

/-- C3 witness: the amended validation-order theorem applied at concrete
inputs — a null output pointer, a scalar pop at the end (NoMoreElements), and
blob/nested pops at the end (InvalidPacket). -/
theorem c3_pop_validation_order_witness :
    _pop_validate dummyPacket true 0 1 = (YAPB_ERR_NULL_PTR, dummyPacket) ∧
    (YAPB_pop_i8 ((YAPB_load false (some (listMem [0, 0, 0, 4])) 4).2.getD dummyPacket) false).1 =
      YAPB_ERR_NO_MORE_ELEMENTS ∧
    (YAPB_pop_blob ((YAPB_load false (some (listMem [0, 0, 0, 4])) 4).2.getD dummyPacket) false false).1 =
      YAPB_ERR_INVALID_PACKET ∧
    (YAPB_pop_nested ((YAPB_load false (some (listMem [0, 0, 0, 4])) 4).2.getD dummyPacket) false).1 =
      YAPB_ERR_INVALID_PACKET :=
  ⟨(c3_pop_validation_order.1 dummyPacket 0 1).1,
   (c3_pop_validation_order.2 ((YAPB_load false (some (listMem [0, 0, 0, 4])) 4).2.getD dummyPacket)
      (by decide) (by decide) (by decide)).1,
   (c3_pop_validation_order.2 ((YAPB_load false (some (listMem [0, 0, 0, 4])) 4).2.getD dummyPacket)
      (by decide) (by decide) (by decide)).2.2.2.2.2.2.1,
   (c3_pop_validation_order.2 ((YAPB_load false (some (listMem [0, 0, 0, 4])) 4).2.getD dummyPacket)
      (by decide) (by decide) (by decide)).2.2.2.2.2.2.2⟩

/-- C5 evaluated at a failing input: `YAPB_pop_blob(NULL, &data, &len)` and
`YAPB_pop_nested(NULL, &out)` dereference the null packet handle
(`p->pos`, `p->buffer_size`) before any null check runs — the null check of
`_pop_validate` sits after those accesses — so the calls crash (`none` in the
model) instead of returning `NULL_PTR`, contradicting the claim that a null
check precedes every access and no operation crashes. -/
theorem c5_null_packet_blob_nested_crash_eval :
    YAPB_pop_blob_c none false false = none ∧ YAPB_pop_nested_c none false = none :=
  ⟨rfl, rfl⟩

/-- C6: `YAPB_load` fails with `NullPointer` when the packet handle or data
pointer is absent, with `BufferTooSmall` when `size < 4`, and with
`InvalidPacket` when the 4-byte big-endian declared length exceeds `size` or
is smaller than 4; on success it writes a packet with mode = Read,
position = 4, error = OK, and `buffer_size` equal to the declared length
(not the caller's full `size`). -/
theorem c6_load_contract :
    (∀ (data : Option Mem) (size : Nat), YAPB_load true data size = (YAPB_ERR_NULL_PTR, none)) ∧
    (∀ (pn : Bool) (size : Nat), YAPB_load pn none size = (YAPB_ERR_NULL_PTR, none)) ∧
    (∀ (d : Mem) (size : Nat), size < YAPB_HEADER_SIZE →
      YAPB_load false (some d) size = (YAPB_ERR_BUFFER_TOO_SMALL, none)) ∧
    (∀ (d : Mem) (size : Nat), YAPB_HEADER_SIZE ≤ size →
      (size < read_u32 d 0 ∨ read_u32 d 0 < YAPB_HEADER_SIZE) →
      YAPB_load false (some d) size = (YAPB_ERR_INVALID_PACKET, none)) ∧
    (∀ (d : Mem) (size : Nat), YAPB_HEADER_SIZE ≤ size → read_u32 d 0 ≤ size →
      YAPB_HEADER_SIZE ≤ read_u32 d 0 →
      YAPB_load false (some d) size =
        (YAPB_OK, some ⟨d, read_u32 d 0, YAPB_HEADER_SIZE, YAPB_MODE_READ, YAPB_OK, false⟩)) := by
  refine ⟨?_, ?_, ?_, ?_, ?_⟩
  · intro data size
    cases data <;> rfl
  · intro pn size
    cases pn <;> rfl
  · intro d size h
    simp [YAPB_load, h]
  · intro d size h4 h
    simp [YAPB_load, h, show ¬size < YAPB_HEADER_SIZE by omega]
  · intro d size h4 hle hge
    simp [YAPB_load, show ¬size < YAPB_HEADER_SIZE by omega,
      show ¬(size < read_u32 d 0 ∨ read_u32 d 0 < YAPB_HEADER_SIZE) by omega]

/-- C6 witness: the load contract applied at concrete inputs — a null handle,
a 3-byte buffer, a corrupt header, and a successful load where the caller
passes 9 bytes but the declared length 5 becomes `buffer_size`. -/
theorem c6_load_contract_witness :
    YAPB_load true (some (listMem [0, 0, 0, 4])) 4 = (YAPB_ERR_NULL_PTR, none) ∧
    YAPB_load false (some (listMem [0, 0, 0])) 3 = (YAPB_ERR_BUFFER_TOO_SMALL, none) ∧
    YAPB_load false (some (listMem [0, 0, 0, 3])) 4 = (YAPB_ERR_INVALID_PACKET, none) ∧
    YAPB_load false (some (listMem [0, 0, 0, 5, 9])) 9 =
      (YAPB_OK, some ⟨listMem [0, 0, 0, 5, 9], read_u32 (listMem [0, 0, 0, 5, 9]) 0,
        YAPB_HEADER_SIZE, YAPB_MODE_READ, YAPB_OK, false⟩) :=
  ⟨c6_load_contract.1 (some (listMem [0, 0, 0, 4])) 4,
   c6_load_contract.2.2.1 (listMem [0, 0, 0]) 3 (by decide),
   c6_load_contract.2.2.2.1 (listMem [0, 0, 0, 3]) 4 (by decide) (by decide),
   c6_load_contract.2.2.2.2 (listMem [0, 0, 0, 5, 9]) 9 (by decide) (by decide) (by decide)⟩

/-- C7: finalize is one-shot — on a write-mode, not-yet-finalized packet it
writes the current position into the big-endian header, latches `finalized`,
and reports `position` through `out_len`; a second finalize on the resulting
packet returns `InvalidMode` with the state (hence the header bytes written
by the first call) unchanged; finalize on a read-mode packet also returns
`InvalidMode`. -/
theorem c7_finalize_one_shot :
    (∀ (p : Packet) (oln : Bool), p.mode = YAPB_MODE_WRITE → p.finalized = false →
      YAPB_finalize p oln =
        (YAPB_OK, {p with buffer := write_u32 p.buffer 0 p.pos, finalized := true},
          if oln then none else some p.pos) ∧
      read_u32 (YAPB_finalize p oln).2.1.buffer 0 = p.pos % 4294967296 ∧
      YAPB_finalize (YAPB_finalize p oln).2.1 oln =
        (YAPB_ERR_INVALID_MODE, (YAPB_finalize p oln).2.1, none) ∧
      read_u32 (YAPB_finalize (YAPB_finalize p oln).2.1 oln).2.1.buffer 0 = p.pos % 4294967296) ∧
    (∀ (p : Packet) (oln : Bool), p.mode = YAPB_MODE_READ →
      YAPB_finalize p oln = (YAPB_ERR_INVALID_MODE, p, none)) := by
  constructor
  · intro p oln hm hf
    have e1 : YAPB_finalize p oln =
        (YAPB_OK, {p with buffer := write_u32 p.buffer 0 p.pos, finalized := true},
          if oln then none else some p.pos) := by
      simp [YAPB_finalize, hm, hf, YAPB_MODE_WRITE]
    have e2 : YAPB_finalize (YAPB_finalize p oln).2.1 oln =
        (YAPB_ERR_INVALID_MODE, (YAPB_finalize p oln).2.1, none) := by
      rw [e1]
      simp [YAPB_finalize]
    refine ⟨e1, ?_, e2, ?_⟩
    · rw [e1]
      exact read_u32_write_u32 p.buffer 0 p.pos
    · rw [e2, e1]
      exact read_u32_write_u32 p.buffer 0 p.pos
  · intro p oln hm
    simp [YAPB_finalize, hm, YAPB_MODE_READ, YAPB_MODE_WRITE]

/-- C7 witness: the one-shot finalize theorem applied to a freshly
initialized 6-byte write packet. -/
theorem c7_finalize_one_shot_witness :
    read_u32 (YAPB_finalize (( YAPB_initialize false (some zeros) 6).2.getD dummyPacket) false).2.1.buffer 0 =
      (( YAPB_initialize false (some zeros) 6).2.getD dummyPacket).pos % 4294967296 ∧
    YAPB_finalize (YAPB_finalize (( YAPB_initialize false (some zeros) 6).2.getD dummyPacket) false).2.1 false =
      (YAPB_ERR_INVALID_MODE,
        (YAPB_finalize (( YAPB_initialize false (some zeros) 6).2.getD dummyPacket) false).2.1, none) ∧
    read_u32 (YAPB_finalize (YAPB_finalize (( YAPB_initialize false (some zeros) 6).2.getD dummyPacket) false).2.1 false).2.1.buffer 0 =
      (( YAPB_initialize false (some zeros) 6).2.getD dummyPacket).pos % 4294967296 :=
  ⟨(c7_finalize_one_shot.1 (( YAPB_initialize false (some zeros) 6).2.getD dummyPacket) false
      (by decide) (by decide)).2.1,
   (c7_finalize_one_shot.1 (( YAPB_initialize false (some zeros) 6).2.getD dummyPacket) false
      (by decide) (by decide)).2.2.1,
   (c7_finalize_one_shot.1 (( YAPB_initialize false (some zeros) 6).2.getD dummyPacket) false
      (by decide) (by decide)).2.2.2⟩

/-- C8: the standalone `YAPB_check_complete` returns false when the data
pointer is absent or fewer than 4 bytes are available, false when the
declared big-endian length is smaller than 4, false when fewer bytes than the
declared length are available, and true otherwise — including exactly at the
boundary `len = declared length`. -/
theorem c8_check_complete_contract :
    (∀ len : Nat, YAPB_check_complete none len = false) ∧
    (∀ (d : Mem) (len : Nat), len < YAPB_HEADER_SIZE →
      YAPB_check_complete (some d) len = false) ∧
    (∀ (d : Mem) (len : Nat), YAPB_HEADER_SIZE ≤ len → read_u32 d 0 < YAPB_HEADER_SIZE →
      YAPB_check_complete (some d) len = false) ∧
    (∀ (d : Mem) (len : Nat), YAPB_HEADER_SIZE ≤ len → YAPB_HEADER_SIZE ≤ read_u32 d 0 →
      len < read_u32 d 0 → YAPB_check_complete (some d) len = false) ∧
    (∀ (d : Mem) (len : Nat), YAPB_HEADER_SIZE ≤ len → YAPB_HEADER_SIZE ≤ read_u32 d 0 →
      read_u32 d 0 ≤ len → YAPB_check_complete (some d) len = true) := by
  refine ⟨?_, ?_, ?_, ?_, ?_⟩
  · intro len
    rfl
  · intro d len h
    simp [YAPB_check_complete, h]
  · intro d len h4 h
    simp [YAPB_check_complete, h, show ¬len < YAPB_HEADER_SIZE by omega]
  · intro d len h4 hd h
    simp [YAPB_check_complete, show ¬len < YAPB_HEADER_SIZE by omega,
      show ¬read_u32 d 0 < YAPB_HEADER_SIZE by omega, show ¬read_u32 d 0 ≤ len by omega]
  · intro d len h4 hd h
    simp [YAPB_check_complete, h, show ¬len < YAPB_HEADER_SIZE by omega,
      show ¬read_u32 d 0 < YAPB_HEADER_SIZE by omega]

/-- C8 witness: the framing-check contract applied at a 7-byte declared
length — false with 6 available bytes, true exactly at the boundary with 7. -/
theorem c8_check_complete_contract_witness :
    YAPB_check_complete none 10 = false ∧
    YAPB_check_complete (some (listMem [0, 0, 0, 7])) 3 = false ∧
    YAPB_check_complete (some (listMem [0, 0, 0, 3])) 8 = false ∧
    YAPB_check_complete (some (listMem [0, 0, 0, 7])) 6 = false ∧
    YAPB_check_complete (some (listMem [0, 0, 0, 7])) 7 = true :=
  ⟨c8_check_complete_contract.1 10,
   c8_check_complete_contract.2.1 (listMem [0, 0, 0, 7]) 3 (by decide),
   c8_check_complete_contract.2.2.1 (listMem [0, 0, 0, 3]) 8 (by decide) (by decide),
   c8_check_complete_contract.2.2.2.1 (listMem [0, 0, 0, 7]) 6 (by decide) (by decide) (by decide),
   c8_check_complete_contract.2.2.2.2 (listMem [0, 0, 0, 7]) 7 (by decide) (by decide) (by decide)⟩

/-- C9: finalize never consults the sticky error — a write-mode,
not-yet-finalized packet whose error is already negative (a failed push
latched it) is still finalized successfully: result OK, `finalized` latched,
the header stamped with the current position, and the position reported
through `out_len`. -/
theorem c9_finalize_ignores_sticky_error :
    ∀ (p : Packet) (oln : Bool), p.mode = YAPB_MODE_WRITE → p.finalized = false → p.error < 0 →
      (YAPB_finalize p oln).1 = YAPB_OK ∧
      (YAPB_finalize p oln).2.1.finalized = true ∧
      read_u32 (YAPB_finalize p oln).2.1.buffer 0 = p.pos % 4294967296 ∧
      (oln = false → (YAPB_finalize p oln).2.2 = some p.pos) := by
  intro p oln hm hf herr
  have e1 : YAPB_finalize p oln =
      (YAPB_OK, {p with buffer := write_u32 p.buffer 0 p.pos, finalized := true},
        if oln then none else some p.pos) := by
    simp [YAPB_finalize, hm, hf, YAPB_MODE_WRITE]
  rw [e1]
  refine ⟨rfl, rfl, read_u32_write_u32 p.buffer 0 p.pos, ?_⟩
  intro h
  rw [h]
  rfl

/-- C9 witness: initialize a 5-byte buffer, let `YAPB_push_i32` fail with
`BUFFER_TOO_SMALL` (latching error -3), then apply the theorem: finalize
still returns OK and stamps the header with position 4. -/
theorem c9_finalize_ignores_sticky_error_witness :
    (YAPB_finalize (YAPB_push_i32 (( YAPB_initialize false (some zeros) 5).2.getD dummyPacket) false 7).2 false).1 =
      YAPB_OK ∧
    read_u32 (YAPB_finalize (YAPB_push_i32 (( YAPB_initialize false (some zeros) 5).2.getD dummyPacket) false 7).2 false).2.1.buffer 0 =
      (YAPB_push_i32 (( YAPB_initialize false (some zeros) 5).2.getD dummyPacket) false 7).2.pos % 4294967296 ∧
    (YAPB_finalize (YAPB_push_i32 (( YAPB_initialize false (some zeros) 5).2.getD dummyPacket) false 7).2 false).2.2 =
      some (YAPB_push_i32 (( YAPB_initialize false (some zeros) 5).2.getD dummyPacket) false 7).2.pos :=
  ⟨(c9_finalize_ignores_sticky_error
      (YAPB_push_i32 (( YAPB_initialize false (some zeros) 5).2.getD dummyPacket) false 7).2 false
      (by decide) (by decide) (by decide)).1,
   (c9_finalize_ignores_sticky_error
      (YAPB_push_i32 (( YAPB_initialize false (some zeros) 5).2.getD dummyPacket) false 7).2 false
      (by decide) (by decide) (by decide)).2.2.1,
   (c9_finalize_ignores_sticky_error
      (YAPB_push_i32 (( YAPB_initialize false (some zeros) 5).2.getD dummyPacket) false 7).2 false
      (by decide) (by decide) (by decide)).2.2.2 rfl⟩

/-- C10: when the next tag byte of a read-mode, error-free, non-exhausted
packet is none of the eight defined tags, `YAPB_pop_next` stores the
unrecognized tag into the output element's type field, latches
`InvalidPacket` as the packet's sticky error, and returns it; the element's
value union is untouched. -/
theorem c10_pop_next_reserved_tag :
    ∀ (p : Packet) (e : Element), 0 ≤ p.error → p.mode = YAPB_MODE_READ →
      p.pos < p.buffer_size →
      byteAt p.buffer p.pos ≠ YAPB_INT8 → byteAt p.buffer p.pos ≠ YAPB_INT16 →
      byteAt p.buffer p.pos ≠ YAPB_INT32 → byteAt p.buffer p.pos ≠ YAPB_INT64 →
      byteAt p.buffer p.pos ≠ YAPB_FLOAT → byteAt p.buffer p.pos ≠ YAPB_DOUBLE →
      byteAt p.buffer p.pos ≠ YAPB_BLOB → byteAt p.buffer p.pos ≠ YAPB_NESTED_PKT →
      YAPB_pop_next p false e =
        (YAPB_ERR_INVALID_PACKET, {p with error := YAPB_ERR_INVALID_PACKET},
          {e with type := byteAt p.buffer p.pos}) := by
  intro p e h0 hm hlt t0 t1 t2 t3 t4 t5 tb tn
  simp [YAPB_pop_next, hm, t0, t1, t2, t3, t4, t5, tb, tn,
    show ¬p.error < 0 by omega, show ¬p.buffer_size ≤ p.pos by omega, YAPB_MODE_READ]

/-- C10 witness: the reserved-tag theorem applied to the loaded packet
`[00 00 00 05 06]` whose next tag byte is the reserved value 0x06. -/
theorem c10_pop_next_reserved_tag_witness :
    YAPB_pop_next ((YAPB_load false (some (listMem [0, 0, 0, 5, 6])) 5).2.getD dummyPacket) false
        ⟨0, ElemVal.varb 0⟩ =
      (YAPB_ERR_INVALID_PACKET,
        {(YAPB_load false (some (listMem [0, 0, 0, 5, 6])) 5).2.getD dummyPacket with
          error := YAPB_ERR_INVALID_PACKET},
        {(⟨0, ElemVal.varb 0⟩ : Element) with
          type := byteAt ((YAPB_load false (some (listMem [0, 0, 0, 5, 6])) 5).2.getD dummyPacket).buffer
            ((YAPB_load false (some (listMem [0, 0, 0, 5, 6])) 5).2.getD dummyPacket).pos}) :=
  c10_pop_next_reserved_tag ((YAPB_load false (some (listMem [0, 0, 0, 5, 6])) 5).2.getD dummyPacket)
    ⟨0, ElemVal.varb 0⟩ (by decide) (by decide) (by decide) (by decide) (by decide) (by decide)
    (by decide) (by decide) (by decide) (by decide) (by decide)

end YAPB
